import Mathlib

/-! ## WPF install-path lookup (`wpf/src/Shared/cpp/utils.cxx`)

A shallow embedding of `WPFUtils::ReadRegistryString` and
`WPFUtils::GetWPFInstallPath`.

The two functions talk to the operating system only: environment block,
registry, `shlwapi`'s `PathAppend`.  The operating system is an explicit
argument (`System`); every function returns, next to its C++ result, the
buffer contents it leaves behind and the ordered list of platform calls it
made, so that "no registry access", "nothing after the failure" and "every
handle closed" are statements about that list.

Machine integers: `size_t` is 64 bits wide and `DWORD`, `LONG`, `HRESULT` are
32 bits wide.  Unsigned values are `Nat`, signed values are `Int`; every cast
that can lose bits is written out (`toDWORD`, `toLONG`).

A character buffer is represented by the string it holds (the characters up
to the terminator).
-/

namespace WPFUtils

/-! ## Constants of the platform headers -/

/-- Modelled from the spec: the "platform maximum-path constant", `MAX_PATH`
of the Windows headers (not under src/). -/
def MAX_PATH : Nat := 260

/-- Modelled from the spec: the "platform integer limit", `INT_MAX` of
`<limits.h>` for a 32-bit `int` (not under src/). -/
def INT_MAX : Nat := 2147483647

/-- Modelled from the spec: the "characterSize" of the byte count handed to
the query, `sizeof(WCHAR)` (not under src/). -/
def sizeofWCHAR : Nat := 2

/-- Modelled from the spec: the type tag of a "string" value, `REG_SZ` of
`winnt.h` (not under src/). -/
def REG_SZ : Nat := 1

/-- Modelled from the spec: the "read-only access" mask, `KEY_READ` of
`winnt.h` (not under src/). -/
def KEY_READ : Nat := 0x20019

/-- Modelled from the spec: the "machine-wide root hierarchy",
`HKEY_LOCAL_MACHINE` of `winreg.h` (not under src/). -/
def HKEY_LOCAL_MACHINE : Nat := 0x80000002

/-- Modelled from the spec: the success status, `ERROR_SUCCESS` of
`winerror.h` (not under src/). -/
def ERROR_SUCCESS : Int := 0

/-- Modelled from the spec: the "not-found" status, `ERROR_FILE_NOT_FOUND` of
`winerror.h` (not under src/). -/
def ERROR_FILE_NOT_FOUND : Int := 2

/-- Modelled from the spec: the "invalid parameter" status,
`ERROR_INVALID_PARAMETER` of `winerror.h` (not under src/). -/
def ERROR_INVALID_PARAMETER : Int := 87

/-- Modelled from the spec: the "more data" status, `ERROR_MORE_DATA` of
`winerror.h` (not under src/). -/
def ERROR_MORE_DATA : Int := 234

/-- Modelled from the spec: the "unsupported type" status,
`ERROR_UNSUPPORTED_TYPE` of `winerror.h` (not under src/). -/
def ERROR_UNSUPPORTED_TYPE : Int := 1630

/-- Modelled from the spec: the success `HRESULT`, `S_OK` (not under src/). -/
def S_OK : Int := 0

/-- Modelled from the spec: the "out-of-memory-class status", `E_OUTOFMEMORY`
of `winerror.h`, the 32-bit pattern `0x8007000E` read as a signed value (not
under src/). -/
def E_OUTOFMEMORY : Int := -2147024882

/-- Modelled from the spec: the facility code that `HRESULT_FROM_WIN32` puts
in bits 16..26, `FACILITY_WIN32` of `winerror.h` (not under src/). -/
def FACILITY_WIN32 : Nat := 7

/-! ## Constants of `utils.cxx` (lines 12-20) -/

/-- The constant `FRAMEWORK_REGKEY` (line 12). -/
def FRAMEWORK_REGKEY : String :=
  "Software\\Microsoft\\Net Framework Setup\\NDP\\v4\\Client"

/-- The constant `FRAMEWORK_INSTALLPATH_REGVALUE` (line 13). -/
def FRAMEWORK_INSTALLPATH_REGVALUE : String := "InstallPath"

/-- The constant `WPF_SUBDIR` (line 14). -/
def WPF_SUBDIR : String := "WPF"

/-- The constant `DOTNET_FRAMEWORK_REGKEY` (line 16). -/
def DOTNET_FRAMEWORK_REGKEY : String := "Software\\Microsoft\\.NETFramework"

/-- The constant `DOTNET_FRAMEWORK_INSTALLROOT_REGVALUE` (line 17). -/
def DOTNET_FRAMEWORK_INSTALLROOT_REGVALUE : String := "InstallRoot"

/-- The constant `COMPLUS_Version` (line 19). -/
def COMPLUS_Version : String := "COMPLUS_Version"

/-- The constant `COMPLUS_InstallRoot` (line 20). -/
def COMPLUS_InstallRoot : String := "COMPLUS_InstallRoot"

/-! ## Machine integers -/

/-- The cast `static_cast<DWORD>(n)` of an unsigned value: the low 32 bits. -/
def toDWORD (n : Nat) : Nat := n % 2 ^ 32

/-- A value stored in a `LONG` or `HRESULT`: the 32-bit two's-complement
reading of an integer. -/
def toLONG (i : Int) : Int := (i + 2 ^ 31) % 2 ^ 32 - 2 ^ 31

/-- The conversion of a `LONG` to `unsigned long`: its 32-bit pattern. -/
def toULONG (i : Int) : Nat := (i % 2 ^ 32).toNat

/-- Modelled from the spec: the translation "from the underlying status code
into the component's error representation", the inline function
`HRESULT_FROM_WIN32(unsigned long x)` of `winerror.h` (not under src/):
`(HRESULT)(x) <= 0 ? (HRESULT)(x)
  : (HRESULT)(((x) & 0x0000FFFF) | (FACILITY_WIN32 << 16) | 0x80000000)`. -/
def HRESULT_FROM_WIN32 (result : Int) : Int :=
  let x := toULONG result
  if toLONG x ≤ 0 then toLONG x
  else toLONG (((x &&& 0x0000FFFF) ||| (FACILITY_WIN32 <<< 16) ||| 0x80000000 : Nat))

/-- The test `SUCCEEDED(hr)`: `hr >= 0`. -/
def SUCCEEDED (hr : Int) : Bool := decide (0 ≤ hr)

/-- The test `FAILED(hr)`: `hr < 0`. -/
def FAILED (hr : Int) : Bool := decide (hr < 0)

/-! ## The platform -/

/-- An open registry key handle: the key it was opened on. -/
structure KeyHandle where
  root : Nat
  subKey : String
  deriving DecidableEq, Repr

/-- What `RegQueryValueEx` reports: its status, the type it stores through
`lpType`, and the text it stores in the data buffer (`none`: the buffer is
left as it was). -/
structure QueryOutcome where
  status : Int
  type : Nat
  data : Option String
  deriving DecidableEq, Repr

/-- A registry state, seen through the two calls that read it. Nothing is
assumed about which statuses it reports. -/
structure Registry where
  /-- Status of `RegOpenKeyEx(hKey, lpSubKey, ulOptions, samDesired, &key)`. -/
  openKey : Nat → String → Nat → Nat → Int
  /-- Outcome of `RegQueryValueEx(key, lpValueName, NULL, &type, data, &cbData)`,
  given the byte capacity `cbData` announced by the caller. -/
  queryValue : KeyHandle → String → Nat → QueryOutcome

/-- Everything outside the two functions. -/
structure System where
  /-- The environment block: the value of each variable that is set. -/
  env : String → Option String
  /-- The registry. -/
  reg : Registry
  /-- The shell routine `PathAppend(pszPath, pszMore)`: its `BOOL` result and
  the contents of `pszPath` afterwards. -/
  pathAppend : String → String → Bool × String
  /-- The contents of the uninitialised local array `wszVersion`. -/
  stack : String

/-- A call made to the platform. -/
inductive Call where
  | GetEnvironmentVariableW (lpName : String) (nSize : Nat)
  | RegOpenKeyEx (hKey : Nat) (lpSubKey : String) (ulOptions samDesired : Nat) (status : Int)
  | RegQueryValueEx (hKey : KeyHandle) (lpValueName : String) (cbData : Nat)
  | RegCloseKey (hKey : KeyHandle)
  | PathAppend (pszPath pszMore : String)
  deriving DecidableEq, Repr

/-- Modelled from the spec: the platform's "read an environment variable"
primitive, `GetEnvironmentVariableW(lpName, lpBuffer, nSize)` (not under
src/). A variable that is not set reads as length zero and leaves the buffer
alone; a value that fits in `nSize` characters with its terminator is stored
and its length returned; otherwise the required size, terminator included, is
returned and the buffer is left alone. The result is a `DWORD`. -/
def GetEnvironmentVariableW (env : String → Option String) (lpName : String)
    (lpBuffer : String) (nSize : Nat) : Nat × String :=
  match env lpName with
  | none => (0, lpBuffer)
  | some v =>
    if v.length < nSize then (toDWORD v.length, v)
    else (toDWORD (v.length + 1), lpBuffer)

/-- The `LONG` returned by `RegOpenKeyEx(hKey, lpSubKey, ulOptions, samDesired, &key)`. -/
def RegOpenKeyEx (reg : Registry) (hKey : Nat) (lpSubKey : String) (ulOptions samDesired : Nat) :
    Int :=
  toLONG (reg.openKey hKey lpSubKey ulOptions samDesired)

/-- The outcome of `RegQueryValueEx(key, lpValueName, NULL, &type, data, &cbData)`,
its status a `LONG`. -/
def RegQueryValueEx (reg : Registry) (key : KeyHandle) (lpValueName : String) (cbData : Nat) :
    QueryOutcome :=
  let q := reg.queryValue key lpValueName cbData
  { q with status := toLONG q.status }

/-! ## `ReadRegistryString` (lines 36-66) -/

/-- What a call of `ReadRegistryString` leaves behind: the returned `LONG`,
the contents of the `value` buffer, and the platform calls it made. -/
structure RegRead where
  result : Int
  value : String
  calls : List Call
  deriving DecidableEq, Repr

/-- The function `LONG ReadRegistryString(HKEY rootKey, LPCWSTR keyName, LPCWSTR valueName,
LPWSTR value, size_t cchMax)`. -/
def ReadRegistryString (reg : Registry) (rootKey : Nat) (keyName valueName : String)
    (value : String) (cchMax : Nat) : RegRead :=
  -- HKEY key = NULL;
  -- LONG result = RegOpenKeyEx(rootKey, keyName, 0, KEY_READ, &key);
  let result := RegOpenKeyEx reg rootKey keyName 0 KEY_READ
  let opened := Call.RegOpenKeyEx rootKey keyName 0 KEY_READ result
  let key : KeyHandle := ⟨rootKey, keyName⟩
  if result = ERROR_SUCCESS then
    if cchMax > INT_MAX then
      -- result = ERROR_INVALID_PARAMETER;
      { result := ERROR_INVALID_PARAMETER, value := value, calls := [opened] }
    else
      -- DWORD sizeInBytes = static_cast<DWORD>(cchMax) * sizeof(WCHAR);
      let sizeInBytes := toDWORD (toDWORD cchMax * sizeofWCHAR)
      -- result = RegQueryValueEx(key, valueName, NULL, &type, (LPBYTE)value, &sizeInBytes);
      let q := RegQueryValueEx reg key valueName sizeInBytes
      -- if (result == ERROR_SUCCESS && type != REG_SZ) result = ERROR_UNSUPPORTED_TYPE;
      -- RegCloseKey(key);
      { result := if q.status = ERROR_SUCCESS ∧ q.type ≠ REG_SZ then ERROR_UNSUPPORTED_TYPE
                  else q.status,
        value := q.data.getD value,
        calls := [opened, Call.RegQueryValueEx key valueName sizeInBytes, Call.RegCloseKey key] }
  else
    -- return result;
    { result := result, value := value, calls := [opened] }

/-! ## `GetWPFInstallPath` (lines 87-161) -/

/-- What a call of `GetWPFInstallPath` leaves behind: the returned `HRESULT`,
the contents of the `pszPath` buffer, and the platform calls it made. -/
structure PathResult where
  hr : Int
  pszPath : String
  calls : List Call
  deriving DecidableEq, Repr

/-- The guarded append that `GetWPFInstallPath` performs twice (lines 128-135
with `wszVersion`, lines 151-158 with `WPF_SUBDIR`):
`if (SUCCEEDED(hr)) { if (!::PathAppend(pszPath, pszMore)) hr = E_OUTOFMEMORY; }`. -/
def appendSegment (sys : System) (s : PathResult) (pszMore : String) : PathResult :=
  if SUCCEEDED s.hr then
    let a := sys.pathAppend s.pszPath pszMore
    { hr := if !a.1 then E_OUTOFMEMORY else s.hr,
      pszPath := a.2,
      calls := s.calls ++ [Call.PathAppend s.pszPath pszMore] }
  else s

/-- Lines 113-125 of `GetWPFInstallPath`: the read of `COMPLUS_InstallRoot`
into `pszPath` and, when it reads as length zero, the fallback to the
`InstallRoot` value of the registry. -/
def readInstallRoot (sys : System) (s : PathResult) (cchMaxPath : Nat) : PathResult :=
  -- ch = GetEnvironmentVariableW(COMPLUS_InstallRoot, pszPath, static_cast<DWORD>(cchMaxPath));
  let r := GetEnvironmentVariableW sys.env COMPLUS_InstallRoot s.pszPath (toDWORD cchMaxPath)
  let calls := s.calls ++ [Call.GetEnvironmentVariableW COMPLUS_InstallRoot (toDWORD cchMaxPath)]
  if r.1 ≤ 0 then
    -- LONG result = ReadRegistryString(HKEY_LOCAL_MACHINE, DOTNET_FRAMEWORK_REGKEY,
    --   DOTNET_FRAMEWORK_INSTALLROOT_REGVALUE, pszPath, static_cast<DWORD>(cchMaxPath));
    let rr := ReadRegistryString sys.reg HKEY_LOCAL_MACHINE DOTNET_FRAMEWORK_REGKEY
      DOTNET_FRAMEWORK_INSTALLROOT_REGVALUE r.2 (toDWORD cchMaxPath)
    -- if (result != ERROR_SUCCESS) hr = HRESULT_FROM_WIN32(result);
    { hr := if rr.result ≠ ERROR_SUCCESS then HRESULT_FROM_WIN32 rr.result else s.hr,
      pszPath := rr.value,
      calls := calls ++ rr.calls }
  else { hr := s.hr, pszPath := r.2, calls := calls }

/-- Lines 143-147 of `GetWPFInstallPath`: the fallback to the `InstallPath`
value of the registry. -/
def readInstallPath (sys : System) (s : PathResult) (cchMaxPath : Nat) : PathResult :=
  -- LONG result = ReadRegistryString(HKEY_LOCAL_MACHINE, FRAMEWORK_REGKEY,
  --   FRAMEWORK_INSTALLPATH_REGVALUE, pszPath, cchMaxPath);
  let rr := ReadRegistryString sys.reg HKEY_LOCAL_MACHINE FRAMEWORK_REGKEY
    FRAMEWORK_INSTALLPATH_REGVALUE s.pszPath cchMaxPath
  -- if (result != ERROR_SUCCESS) hr = HRESULT_FROM_WIN32(result);
  { hr := if rr.result ≠ ERROR_SUCCESS then HRESULT_FROM_WIN32 rr.result else s.hr,
    pszPath := rr.value,
    calls := s.calls ++ rr.calls }

/-- The function `HRESULT GetWPFInstallPath(LPWSTR pszPath, size_t cchMaxPath)`. -/
def GetWPFInstallPath (sys : System) (pszPath : String) (cchMaxPath : Nat) : PathResult :=
  -- if (cchMaxPath < MAX_PATH) return E_OUTOFMEMORY;
  if cchMaxPath < MAX_PATH then { hr := E_OUTOFMEMORY, pszPath := pszPath, calls := [] }
  else
    -- ch = GetEnvironmentVariableW(COMPLUS_Version, wszVersion, MAX_PATH);
    let v := GetEnvironmentVariableW sys.env COMPLUS_Version sys.stack MAX_PATH
    let wszVersion := v.2
    -- HRESULT hr = S_OK;
    let s : PathResult :=
      { hr := S_OK, pszPath := pszPath,
        calls := [Call.GetEnvironmentVariableW COMPLUS_Version MAX_PATH] }
    let s : PathResult :=
      if v.1 > 0 then
        -- the install root, then: if (SUCCEEDED(hr)) PathAppend(pszPath, wszVersion)
        appendSegment sys (readInstallRoot sys s cchMaxPath) wszVersion
      else
        readInstallPath sys s cchMaxPath
    -- if (SUCCEEDED(hr)) PathAppend(pszPath, WPF_SUBDIR); return hr;
    appendSegment sys s WPF_SUBDIR

/-! ## Reading the list of platform calls -/

/-- The handles that are open after a list of platform calls, starting from
the handles `hs`: a successful `RegOpenKeyEx` adds one, `RegCloseKey` removes
the one it is given. -/
def trackHandles (hs : List KeyHandle) : List Call → List KeyHandle
  | [] => hs
  | Call.RegOpenKeyEx hKey lpSubKey _ _ status :: cs =>
    if status = ERROR_SUCCESS then trackHandles (⟨hKey, lpSubKey⟩ :: hs) cs
    else trackHandles hs cs
  | Call.RegCloseKey h :: cs => trackHandles (hs.erase h) cs
  | _ :: cs => trackHandles hs cs

/-- The handles a list of platform calls leaves open. -/
def handlesLeftOpen (calls : List Call) : List KeyHandle := trackHandles [] calls

/-- Whether a platform call touches the registry. -/
def Call.isRegistry : Call → Bool
  | Call.RegOpenKeyEx _ _ _ _ _ => true
  | Call.RegQueryValueEx _ _ _ => true
  | Call.RegCloseKey _ => true
  | _ => false

/-- Whether a platform call is a `PathAppend`. -/
def Call.isPathAppend : Call → Bool
  | Call.PathAppend _ _ => true
  | _ => false

/-- Whether a platform call is a `RegQueryValueEx`. -/
def Call.isQuery : Call → Bool
  | Call.RegQueryValueEx _ _ _ => true
  | _ => false

/-- The registry location a platform call reads: root, key path, and for a
value query the value name. -/
def Call.location : Call → Option (Nat × String × Option String)
  | Call.RegOpenKeyEx hKey lpSubKey _ _ _ => some (hKey, lpSubKey, none)
  | Call.RegQueryValueEx h lpValueName _ => some (h.root, h.subKey, some lpValueName)
  | _ => none

/-! ## A sample platform -/

/-- A value stored under a registry key. -/
structure RegValue where
  name : String
  type : Nat
  data : String
  deriving DecidableEq, Repr

/-- A registry key with the values under it. -/
structure RegKey where
  root : Nat
  path : String
  values : List RegValue
  deriving DecidableEq, Repr

/-- Modelled from the spec: the platform's "open/query a hierarchical key"
operations over an explicit list of keys (the registry itself is not under
src/). A key that is not listed fails to open with the not-found status; a
value that is not listed fails the query with the not-found status; a value
whose text with its terminator needs more than `cbData` bytes fails the query
with the more-data status and still reports its type; otherwise the text is
stored and the type reported. -/
def registryOf (keys : List RegKey) : Registry where
  openKey := fun root path _ _ =>
    if keys.any (fun k => decide (k.root = root ∧ k.path = path)) then ERROR_SUCCESS
    else ERROR_FILE_NOT_FOUND
  queryValue := fun h name cbData =>
    match keys.find? (fun k => decide (k.root = h.root ∧ k.path = h.subKey)) with
    | none => ⟨ERROR_FILE_NOT_FOUND, 0, none⟩
    | some k =>
      match k.values.find? (fun v => decide (v.name = name)) with
      | none => ⟨ERROR_FILE_NOT_FOUND, 0, none⟩
      | some v =>
        if sizeofWCHAR * (v.data.length + 1) ≤ cbData then ⟨ERROR_SUCCESS, v.type, some v.data⟩
        else ⟨ERROR_MORE_DATA, v.type, none⟩

/-- Modelled from the spec: the platform's "append a path segment respecting
buffer limits" primitive, `PathAppend` of `shlwapi` (not under src/), for
segments without `.` or `..` components: the segment is joined to the path
with exactly one separator, and the call fails, leaving the path alone, when
the result with its terminator does not fit in `MAX_PATH` characters. -/
def samplePathAppend (pszPath pszMore : String) : Bool × String :=
  let joined : String :=
    if pszPath.data = [] then pszMore
    else if pszPath.data.getLast? = some '\\' then pszPath ++ pszMore
    else pszPath ++ "\\" ++ pszMore
  if joined.length < MAX_PATH then (true, joined) else (false, pszPath)

/-- An environment block given by the list of its variables. -/
def envOf (vars : List (String × String)) (name : String) : Option String :=
  (vars.find? (fun p => decide (p.1 = name))).map (fun p => p.2)

/-- A sample system: the listed environment variables, the listed registry
keys, `samplePathAppend`, and an empty `wszVersion`. -/
def sampleSystem (vars : List (String × String)) (keys : List RegKey) : System where
  env := envOf vars
  reg := registryOf keys
  pathAppend := samplePathAppend
  stack := ""

/-- A registry holding both framework keys with string values. -/
def sampleKeys : List RegKey :=
  [ ⟨HKEY_LOCAL_MACHINE, "Software\\Microsoft\\.NETFramework",
      [⟨"InstallRoot", REG_SZ, "C:\\Windows\\Microsoft.NET\\Framework"⟩]⟩,
    ⟨HKEY_LOCAL_MACHINE, "Software\\Microsoft\\Net Framework Setup\\NDP\\v4\\Client",
      [⟨"InstallPath", REG_SZ, "C:\\Program Files\\Reference Assemblies"⟩]⟩ ]

/-- Modelled from the spec: a type tag "other than string", `REG_EXPAND_SZ`
of `winnt.h` (not under src/). -/
def REG_EXPAND_SZ : Nat := 2

/-- A registry whose `InstallPath` value exists under the v4 client key with
type `REG_EXPAND_SZ` and a text of 300 characters. -/
def expandKeys : List RegKey :=
  [ ⟨HKEY_LOCAL_MACHINE, "Software\\Microsoft\\Net Framework Setup\\NDP\\v4\\Client",
      [⟨"InstallPath", REG_EXPAND_SZ, String.mk (List.replicate 300 'x')⟩]⟩ ]

/-- A registry that holds `InstallRoot` under the key path
`Software\.NETFramework` only. -/
def shortPathKeys : List RegKey :=
  [ ⟨HKEY_LOCAL_MACHINE, "Software\\.NETFramework",
      [⟨"InstallRoot", REG_SZ, "C:\\Windows\\Microsoft.NET\\Framework"⟩]⟩ ]

theorem toLONG_range (i : Int) : -2 ^ 31 ≤ toLONG i ∧ toLONG i < 2 ^ 31 := by
  unfold toLONG; omega

/-- The byte count of line 51 never wraps: for a capacity that passed the
`INT_MAX` test it is exactly twice the capacity. -/
theorem sizeInBytes_exact {cchMax : Nat} (h : ¬ cchMax > INT_MAX) :
    toDWORD (toDWORD cchMax * sizeofWCHAR) = 2 * cchMax := by
  unfold INT_MAX at h
  unfold toDWORD sizeofWCHAR
  omega

/-- A nonzero `LONG` translates to a negative `HRESULT`. -/
theorem HRESULT_FROM_WIN32_neg {s : Int} (h1 : -2 ^ 31 ≤ s) (h2 : s < 2 ^ 31) (h0 : s ≠ 0) :
    HRESULT_FROM_WIN32 s < 0 := by
  unfold HRESULT_FROM_WIN32
  simp only
  split
  · have : toLONG (toULONG s) ≠ 0 := by
      unfold toLONG toULONG; omega
    omega
  · have hb : Nat.testBit
        ((toULONG s &&& 0x0000FFFF) ||| (FACILITY_WIN32 <<< 16) ||| 0x80000000) 31 = true := by
      rw [Nat.testBit_or]
      have : Nat.testBit 0x80000000 31 = true := by decide
      simp [this]
    have hlo := Nat.testBit_implies_ge hb
    have hhi : ((toULONG s &&& 0x0000FFFF) ||| (FACILITY_WIN32 <<< 16) ||| 0x80000000 : Nat)
        < 2 ^ 32 := by
      apply Nat.or_lt_two_pow
      · apply Nat.or_lt_two_pow
        · exact Nat.and_lt_two_pow _ (by norm_num)
        · decide
      · decide
    unfold toLONG; omega

theorem SUCCEEDED_of_neg {hr : Int} (h : hr < 0) : SUCCEEDED hr = false := by
  unfold SUCCEEDED; simp; omega

theorem FAILED_of_neg {hr : Int} (h : hr < 0) : FAILED hr = true := by
  unfold FAILED; simpa using h

/-! ## Facts about the platform calls -/

theorem RegOpenKeyEx_range (reg : Registry) (hKey : Nat) (lpSubKey : String) (o a : Nat) :
    -2 ^ 31 ≤ RegOpenKeyEx reg hKey lpSubKey o a ∧ RegOpenKeyEx reg hKey lpSubKey o a < 2 ^ 31 :=
  toLONG_range _

theorem RegQueryValueEx_range (reg : Registry) (key : KeyHandle) (name : String) (cb : Nat) :
    -2 ^ 31 ≤ (RegQueryValueEx reg key name cb).status ∧
    (RegQueryValueEx reg key name cb).status < 2 ^ 31 :=
  toLONG_range _

/-! ## Facts about `ReadRegistryString` -/

/-- The open fails: its status is returned and nothing else is done. -/
theorem ReadRegistryString_open_failed (reg : Registry) (rootKey : Nat)
    (keyName valueName value : String) (cchMax : Nat)
    (h : RegOpenKeyEx reg rootKey keyName 0 KEY_READ ≠ ERROR_SUCCESS) :
    ReadRegistryString reg rootKey keyName valueName value cchMax =
      { result := RegOpenKeyEx reg rootKey keyName 0 KEY_READ, value := value,
        calls := [Call.RegOpenKeyEx rootKey keyName 0 KEY_READ
          (RegOpenKeyEx reg rootKey keyName 0 KEY_READ)] } := by
  unfold ReadRegistryString
  simp only [h, if_false]

/-- The open succeeds and the capacity exceeds `INT_MAX`. -/
theorem ReadRegistryString_oversized (reg : Registry) (rootKey : Nat)
    (keyName valueName value : String) (cchMax : Nat)
    (h : RegOpenKeyEx reg rootKey keyName 0 KEY_READ = ERROR_SUCCESS) (hc : cchMax > INT_MAX) :
    ReadRegistryString reg rootKey keyName valueName value cchMax =
      { result := ERROR_INVALID_PARAMETER, value := value,
        calls := [Call.RegOpenKeyEx rootKey keyName 0 KEY_READ ERROR_SUCCESS] } := by
  unfold ReadRegistryString
  simp only [h, hc, if_true]

/-- The open succeeds and the capacity is at most `INT_MAX`: the value is
queried and the key closed. -/
theorem ReadRegistryString_queried (reg : Registry) (rootKey : Nat)
    (keyName valueName value : String) (cchMax : Nat)
    (h : RegOpenKeyEx reg rootKey keyName 0 KEY_READ = ERROR_SUCCESS) (hc : ¬ cchMax > INT_MAX) :
    ReadRegistryString reg rootKey keyName valueName value cchMax =
      { result :=
          if (RegQueryValueEx reg ⟨rootKey, keyName⟩ valueName
                (toDWORD (toDWORD cchMax * sizeofWCHAR))).status = ERROR_SUCCESS ∧
             (RegQueryValueEx reg ⟨rootKey, keyName⟩ valueName
                (toDWORD (toDWORD cchMax * sizeofWCHAR))).type ≠ REG_SZ
          then ERROR_UNSUPPORTED_TYPE
          else (RegQueryValueEx reg ⟨rootKey, keyName⟩ valueName
                (toDWORD (toDWORD cchMax * sizeofWCHAR))).status,
        value := (RegQueryValueEx reg ⟨rootKey, keyName⟩ valueName
                (toDWORD (toDWORD cchMax * sizeofWCHAR))).data.getD value,
        calls := [Call.RegOpenKeyEx rootKey keyName 0 KEY_READ ERROR_SUCCESS,
          Call.RegQueryValueEx ⟨rootKey, keyName⟩ valueName
            (toDWORD (toDWORD cchMax * sizeofWCHAR)),
          Call.RegCloseKey ⟨rootKey, keyName⟩] } := by
  unfold ReadRegistryString
  simp only [h, hc, if_true, if_false]

/-- The status `ReadRegistryString` returns is a `LONG`. -/
theorem ReadRegistryString_result_range (reg : Registry) (rootKey : Nat)
    (keyName valueName value : String) (cchMax : Nat) :
    -2 ^ 31 ≤ (ReadRegistryString reg rootKey keyName valueName value cchMax).result ∧
    (ReadRegistryString reg rootKey keyName valueName value cchMax).result < 2 ^ 31 := by
  by_cases h : RegOpenKeyEx reg rootKey keyName 0 KEY_READ = ERROR_SUCCESS
  · by_cases hc : cchMax > INT_MAX
    · rw [ReadRegistryString_oversized _ _ _ _ _ _ h hc]
      simp only [ERROR_INVALID_PARAMETER]; omega
    · rw [ReadRegistryString_queried _ _ _ _ _ _ h hc]
      simp only
      split
      · simp only [ERROR_UNSUPPORTED_TYPE]; omega
      · exact RegQueryValueEx_range _ _ _ _
  · rw [ReadRegistryString_open_failed _ _ _ _ _ _ h]
    exact RegOpenKeyEx_range _ _ _ _ _

/-- A nonzero status of `ReadRegistryString` translates to a failure. -/
theorem ReadRegistryString_translate_neg {reg : Registry} {rootKey : Nat}
    {keyName valueName value : String} {cchMax : Nat}
    (h : (ReadRegistryString reg rootKey keyName valueName value cchMax).result ≠ ERROR_SUCCESS) :
    HRESULT_FROM_WIN32 (ReadRegistryString reg rootKey keyName valueName value cchMax).result
      < 0 :=
  HRESULT_FROM_WIN32_neg (ReadRegistryString_result_range _ _ _ _ _ _).1
    (ReadRegistryString_result_range _ _ _ _ _ _).2 h

/-- The platform calls of `ReadRegistryString` are registry calls only. -/
theorem ReadRegistryString_calls_registry (reg : Registry) (rootKey : Nat)
    (keyName valueName value : String) (cchMax : Nat) :
    ∀ c ∈ (ReadRegistryString reg rootKey keyName valueName value cchMax).calls,
      c.isRegistry = true := by
  unfold ReadRegistryString
  simp only
  split
  · split <;> simp [Call.isRegistry]
  · simp [Call.isRegistry]

/-! ## Facts about the steps of `GetWPFInstallPath` -/

/-- A failed status skips the append. -/
theorem appendSegment_failed (sys : System) {s : PathResult} (pszMore : String)
    (h : s.hr < 0) : appendSegment sys s pszMore = s := by
  unfold appendSegment
  simp [SUCCEEDED_of_neg h]

/-- A success status performs the append. -/
theorem appendSegment_succeeded (sys : System) {s : PathResult} (pszMore : String)
    (h : 0 ≤ s.hr) :
    appendSegment sys s pszMore =
      { hr := if !(sys.pathAppend s.pszPath pszMore).1 then E_OUTOFMEMORY else s.hr,
        pszPath := (sys.pathAppend s.pszPath pszMore).2,
        calls := s.calls ++ [Call.PathAppend s.pszPath pszMore] } := by
  unfold appendSegment
  have : SUCCEEDED s.hr = true := by unfold SUCCEEDED; simpa using h
  simp only [this, if_true]

/-- A failed status skips the append, with the state spelled out. -/
theorem appendSegment_mk_failed (sys : System) (hr : Int) (pszPath : String)
    (calls : List Call) (pszMore : String) (h : hr < 0) :
    appendSegment sys { hr := hr, pszPath := pszPath, calls := calls } pszMore =
      { hr := hr, pszPath := pszPath, calls := calls } :=
  @appendSegment_failed sys { hr := hr, pszPath := pszPath, calls := calls } pszMore h

/-- The append after `S_OK`, with the state spelled out. -/
theorem appendSegment_S_OK (sys : System) (pszPath : String) (calls : List Call)
    (pszMore : String) :
    appendSegment sys { hr := S_OK, pszPath := pszPath, calls := calls } pszMore =
      { hr := if !(sys.pathAppend pszPath pszMore).1 then E_OUTOFMEMORY else S_OK,
        pszPath := (sys.pathAppend pszPath pszMore).2,
        calls := calls ++ [Call.PathAppend pszPath pszMore] } :=
  appendSegment_succeeded sys pszMore (show (0 : Int) ≤ S_OK by decide)

/-- When `COMPLUS_InstallRoot` reads as length zero: the `InstallRoot` value of
the registry is read, with the capacity cast to `DWORD`. -/
theorem readInstallRoot_unset (sys : System) (s : PathResult) (cchMaxPath : Nat)
    (h : (GetEnvironmentVariableW sys.env COMPLUS_InstallRoot s.pszPath
      (toDWORD cchMaxPath)).1 = 0) :
    readInstallRoot sys s cchMaxPath =
      { hr :=
          if (ReadRegistryString sys.reg HKEY_LOCAL_MACHINE DOTNET_FRAMEWORK_REGKEY
              DOTNET_FRAMEWORK_INSTALLROOT_REGVALUE
              (GetEnvironmentVariableW sys.env COMPLUS_InstallRoot s.pszPath
                (toDWORD cchMaxPath)).2 (toDWORD cchMaxPath)).result ≠ ERROR_SUCCESS
          then HRESULT_FROM_WIN32 (ReadRegistryString sys.reg HKEY_LOCAL_MACHINE
              DOTNET_FRAMEWORK_REGKEY DOTNET_FRAMEWORK_INSTALLROOT_REGVALUE
              (GetEnvironmentVariableW sys.env COMPLUS_InstallRoot s.pszPath
                (toDWORD cchMaxPath)).2 (toDWORD cchMaxPath)).result
          else s.hr,
        pszPath := (ReadRegistryString sys.reg HKEY_LOCAL_MACHINE DOTNET_FRAMEWORK_REGKEY
              DOTNET_FRAMEWORK_INSTALLROOT_REGVALUE
              (GetEnvironmentVariableW sys.env COMPLUS_InstallRoot s.pszPath
                (toDWORD cchMaxPath)).2 (toDWORD cchMaxPath)).value,
        calls := s.calls ++
          [Call.GetEnvironmentVariableW COMPLUS_InstallRoot (toDWORD cchMaxPath)] ++
          (ReadRegistryString sys.reg HKEY_LOCAL_MACHINE DOTNET_FRAMEWORK_REGKEY
              DOTNET_FRAMEWORK_INSTALLROOT_REGVALUE
              (GetEnvironmentVariableW sys.env COMPLUS_InstallRoot s.pszPath
                (toDWORD cchMaxPath)).2 (toDWORD cchMaxPath)).calls } := by
  unfold readInstallRoot
  have : (GetEnvironmentVariableW sys.env COMPLUS_InstallRoot s.pszPath
      (toDWORD cchMaxPath)).1 ≤ 0 := by omega
  simp only [this, if_true]

/-- When `COMPLUS_Version` reads as non-empty: lines 113-135, then the final append. -/
theorem GetWPFInstallPath_version_set (sys : System) (pszPath : String) {cchMaxPath : Nat}
    (hcap : MAX_PATH ≤ cchMaxPath)
    (hv : 0 < (GetEnvironmentVariableW sys.env COMPLUS_Version sys.stack MAX_PATH).1) :
    GetWPFInstallPath sys pszPath cchMaxPath =
      appendSegment sys
        (appendSegment sys
          (readInstallRoot sys
            { hr := S_OK, pszPath := pszPath,
              calls := [Call.GetEnvironmentVariableW COMPLUS_Version MAX_PATH] } cchMaxPath)
          (GetEnvironmentVariableW sys.env COMPLUS_Version sys.stack MAX_PATH).2)
        WPF_SUBDIR := by
  have hnot : ¬ cchMaxPath < MAX_PATH := by omega
  unfold GetWPFInstallPath
  simp only [hnot, if_false, gt_iff_lt, hv, if_true]

/-- When `COMPLUS_Version` reads as length zero: lines 143-147, then the final
append. -/
theorem GetWPFInstallPath_version_unset (sys : System) (pszPath : String) {cchMaxPath : Nat}
    (hcap : MAX_PATH ≤ cchMaxPath)
    (hv : (GetEnvironmentVariableW sys.env COMPLUS_Version sys.stack MAX_PATH).1 = 0) :
    GetWPFInstallPath sys pszPath cchMaxPath =
      appendSegment sys
        (readInstallPath sys
          { hr := S_OK, pszPath := pszPath,
            calls := [Call.GetEnvironmentVariableW COMPLUS_Version MAX_PATH] } cchMaxPath)
        WPF_SUBDIR := by
  have hnot : ¬ cchMaxPath < MAX_PATH := by omega
  unfold GetWPFInstallPath
  simp only [hnot, if_false, gt_iff_lt, hv, lt_irrefl]

/-! ## Claims about `GetWPFInstallPath`: the capacity guard and the three sources -/

/-- C1: for every capacity below `MAX_PATH`, whatever the environment and the
registry hold, `GetWPFInstallPath` returns `E_OUTOFMEMORY`, leaves the output
buffer as it was and makes no platform call at all (no environment read, no
registry open or query). -/
theorem GetWPFInstallPath_small_capacity (sys : System) (pszPath : String) (cchMaxPath : Nat)
    (h : cchMaxPath < MAX_PATH) :
    GetWPFInstallPath sys pszPath cchMaxPath =
      { hr := E_OUTOFMEMORY, pszPath := pszPath, calls := [] } := by
  unfold GetWPFInstallPath
  simp only [h, if_true]

/-- C1 at capacity 259 on the sample system. -/
theorem GetWPFInstallPath_small_capacity_witness :
    259 < MAX_PATH ∧
    GetWPFInstallPath (sampleSystem [] sampleKeys) "junk" 259 =
      { hr := E_OUTOFMEMORY, pszPath := "junk", calls := [] } :=
  ⟨by decide, GetWPFInstallPath_small_capacity _ _ _ (by decide)⟩

/-- C4: for every capacity of at least `MAX_PATH`, when the read of
`COMPLUS_Version` returns length zero and the `ReadRegistryString` call for
the `InstallPath` value succeeds leaving `path` in the buffer, then
`GetWPFInstallPath` makes exactly the version read, the registry calls of that
`ReadRegistryString` and one `PathAppend` of `"WPF"` to `path`: it never reads
`COMPLUS_InstallRoot`, it appends no version segment, and when the append
succeeds it returns `S_OK` with the buffer equal to `PathAppend(path, "WPF")`. -/
theorem GetWPFInstallPath_registry_path (sys : System) (pszPath : String) (cchMaxPath : Nat)
    (path : String)
    (hcap : MAX_PATH ≤ cchMaxPath)
    (hv : (GetEnvironmentVariableW sys.env COMPLUS_Version sys.stack MAX_PATH).1 = 0)
    (hreg : (ReadRegistryString sys.reg HKEY_LOCAL_MACHINE FRAMEWORK_REGKEY
      FRAMEWORK_INSTALLPATH_REGVALUE pszPath cchMaxPath).result = ERROR_SUCCESS)
    (hval : (ReadRegistryString sys.reg HKEY_LOCAL_MACHINE FRAMEWORK_REGKEY
      FRAMEWORK_INSTALLPATH_REGVALUE pszPath cchMaxPath).value = path) :
    (GetWPFInstallPath sys pszPath cchMaxPath).calls =
      Call.GetEnvironmentVariableW COMPLUS_Version MAX_PATH ::
        ((ReadRegistryString sys.reg HKEY_LOCAL_MACHINE FRAMEWORK_REGKEY
          FRAMEWORK_INSTALLPATH_REGVALUE pszPath cchMaxPath).calls ++
        [Call.PathAppend path WPF_SUBDIR]) ∧
    (∀ n : Nat, Call.GetEnvironmentVariableW COMPLUS_InstallRoot n ∉
      (GetWPFInstallPath sys pszPath cchMaxPath).calls) ∧
    (∀ c ∈ (GetWPFInstallPath sys pszPath cchMaxPath).calls,
      c.isPathAppend = true → c = Call.PathAppend path WPF_SUBDIR) ∧
    ((sys.pathAppend path WPF_SUBDIR).1 = true →
      (GetWPFInstallPath sys pszPath cchMaxPath).hr = S_OK ∧
      (GetWPFInstallPath sys pszPath cchMaxPath).pszPath =
        (sys.pathAppend path WPF_SUBDIR).2) := by
  have hall : GetWPFInstallPath sys pszPath cchMaxPath =
      { hr := if !(sys.pathAppend path WPF_SUBDIR).1 then E_OUTOFMEMORY else S_OK,
        pszPath := (sys.pathAppend path WPF_SUBDIR).2,
        calls := Call.GetEnvironmentVariableW COMPLUS_Version MAX_PATH ::
          ((ReadRegistryString sys.reg HKEY_LOCAL_MACHINE FRAMEWORK_REGKEY
            FRAMEWORK_INSTALLPATH_REGVALUE pszPath cchMaxPath).calls ++
          [Call.PathAppend path WPF_SUBDIR]) } := by
    rw [GetWPFInstallPath_version_unset _ _ hcap hv]
    unfold readInstallPath
    simp only [hreg, hval, ne_eq, not_true_eq_false, if_false]
    rw [appendSegment_S_OK]
    simp only [List.singleton_append, List.cons_append, List.nil_append]
  rw [hall]
  refine ⟨rfl, ?_, ?_, ?_⟩
  · intro n hmem
    simp only [List.mem_cons, List.mem_append, List.mem_singleton, List.not_mem_nil,
      or_false] at hmem
    rcases hmem with h | h | h
    · have : COMPLUS_InstallRoot = COMPLUS_Version := by injection h
      exact absurd this (by decide)
    · have := ReadRegistryString_calls_registry _ _ _ _ _ _ _ h
      simp [Call.isRegistry] at this
    · cases h
  · intro c hmem hpa
    simp only [List.mem_cons, List.mem_append, List.mem_singleton, List.not_mem_nil,
      or_false] at hmem
    rcases hmem with h | h | h
    · subst h; simp [Call.isPathAppend] at hpa
    · have := ReadRegistryString_calls_registry _ _ _ _ _ _ _ h
      cases c <;> simp [Call.isRegistry, Call.isPathAppend] at this hpa
    · exact h
  · intro ha
    simp only [ha, Bool.not_true, Bool.false_eq_true, if_false, and_self]

/-- C4 on the sample system with no `COMPLUS_Version` and
`InstallPath = C:\Program Files\Reference Assemblies` in the registry: the
result is `C:\Program Files\Reference Assemblies\WPF` with status `S_OK`. -/
theorem GetWPFInstallPath_registry_path_witness :
    (GetWPFInstallPath (sampleSystem [] sampleKeys) "" 260).hr = S_OK ∧
    (GetWPFInstallPath (sampleSystem [] sampleKeys) "" 260).pszPath
      = "C:\\Program Files\\Reference Assemblies\\WPF" :=
  have h := (GetWPFInstallPath_registry_path (sampleSystem [] sampleKeys) "" 260
    "C:\\Program Files\\Reference Assemblies"
    (by decide) (by decide) (by decide) (by decide)).2.2.2 (by decide)
  ⟨h.1, h.2.trans (by decide)⟩

/-! ## Claims about `ReadRegistryString` -/

/-- C5, as stated, fails: with the capacity `INT_MAX + 1` and a key that is
missing, `ReadRegistryString` has called `RegOpenKeyEx` and returns its
`ERROR_FILE_NOT_FOUND`, not `ERROR_INVALID_PARAMETER`; with a key that is
present it returns `ERROR_INVALID_PARAMETER`, but after a `RegOpenKeyEx` of
the key. -/
theorem ReadRegistryString_oversized_capacity_counterexample :
    2147483648 > INT_MAX ∧
    ReadRegistryString (registryOf []) HKEY_LOCAL_MACHINE FRAMEWORK_REGKEY
        FRAMEWORK_INSTALLPATH_REGVALUE "" 2147483648 =
      { result := ERROR_FILE_NOT_FOUND, value := "",
        calls := [Call.RegOpenKeyEx HKEY_LOCAL_MACHINE FRAMEWORK_REGKEY 0 KEY_READ
          ERROR_FILE_NOT_FOUND] } ∧
    ERROR_FILE_NOT_FOUND ≠ ERROR_INVALID_PARAMETER ∧
    (ReadRegistryString (registryOf sampleKeys) HKEY_LOCAL_MACHINE FRAMEWORK_REGKEY
        FRAMEWORK_INSTALLPATH_REGVALUE "" 2147483648).result = ERROR_INVALID_PARAMETER ∧
    Call.RegOpenKeyEx HKEY_LOCAL_MACHINE FRAMEWORK_REGKEY 0 KEY_READ ERROR_SUCCESS ∈
      (ReadRegistryString (registryOf sampleKeys) HKEY_LOCAL_MACHINE FRAMEWORK_REGKEY
        FRAMEWORK_INSTALLPATH_REGVALUE "" 2147483648).calls := by
  decide

/-- C5, amended: for every capacity above `INT_MAX` and every root, key path,
value name and registry state, `ReadRegistryString` first opens the key (its
first platform call is the `RegOpenKeyEx`), queries no value and leaves the
buffer as it was; it returns `ERROR_INVALID_PARAMETER` when that open
succeeds and the status of the open when it fails. -/
theorem ReadRegistryString_oversized_capacity (reg : Registry) (rootKey : Nat)
    (keyName valueName value : String) (cchMax : Nat) (h : cchMax > INT_MAX) :
    (ReadRegistryString reg rootKey keyName valueName value cchMax).calls.head? =
      some (Call.RegOpenKeyEx rootKey keyName 0 KEY_READ
        (RegOpenKeyEx reg rootKey keyName 0 KEY_READ)) ∧
    (∀ c ∈ (ReadRegistryString reg rootKey keyName valueName value cchMax).calls,
      c.isQuery = false) ∧
    (ReadRegistryString reg rootKey keyName valueName value cchMax).value = value ∧
    (RegOpenKeyEx reg rootKey keyName 0 KEY_READ = ERROR_SUCCESS →
      (ReadRegistryString reg rootKey keyName valueName value cchMax).result
        = ERROR_INVALID_PARAMETER) ∧
    (RegOpenKeyEx reg rootKey keyName 0 KEY_READ ≠ ERROR_SUCCESS →
      (ReadRegistryString reg rootKey keyName valueName value cchMax).result
        = RegOpenKeyEx reg rootKey keyName 0 KEY_READ) := by
  by_cases ho : RegOpenKeyEx reg rootKey keyName 0 KEY_READ = ERROR_SUCCESS
  · rw [ReadRegistryString_oversized _ _ _ _ _ _ ho h]
    refine ⟨by rw [ho]; rfl, ?_, rfl, fun _ => rfl, fun hne => absurd ho hne⟩
    intro c hc
    simp only [List.mem_singleton] at hc
    subst hc; rfl
  · rw [ReadRegistryString_open_failed _ _ _ _ _ _ ho]
    refine ⟨rfl, ?_, rfl, fun he => absurd he ho, fun _ => rfl⟩
    intro c hc
    simp only [List.mem_singleton] at hc
    subst hc; rfl

/-- C5, amended, at capacity `INT_MAX + 1`: on the sample registry the key
opens and the result is `ERROR_INVALID_PARAMETER`; on the empty registry the
open fails and the result is its `ERROR_FILE_NOT_FOUND`. -/
theorem ReadRegistryString_oversized_capacity_witness :
    (ReadRegistryString (registryOf sampleKeys) HKEY_LOCAL_MACHINE FRAMEWORK_REGKEY
        FRAMEWORK_INSTALLPATH_REGVALUE "" 2147483648).result = ERROR_INVALID_PARAMETER ∧
    (ReadRegistryString (registryOf []) HKEY_LOCAL_MACHINE FRAMEWORK_REGKEY
        FRAMEWORK_INSTALLPATH_REGVALUE "" 2147483648).result = ERROR_FILE_NOT_FOUND :=
  ⟨(ReadRegistryString_oversized_capacity (registryOf sampleKeys) HKEY_LOCAL_MACHINE
      FRAMEWORK_REGKEY FRAMEWORK_INSTALLPATH_REGVALUE "" 2147483648 (by decide)).2.2.2.1
      (by decide),
   ((ReadRegistryString_oversized_capacity (registryOf []) HKEY_LOCAL_MACHINE
      FRAMEWORK_REGKEY FRAMEWORK_INSTALLPATH_REGVALUE "" 2147483648 (by decide)).2.2.2.2
      (by decide)).trans (by decide)⟩

/-- C6, on the code: the handles a call of `ReadRegistryString` leaves open
are none on the open-failure path and on the three paths that query the value
(success, wrong type, query failure), and the one opened key when the open
succeeds and the capacity exceeds `INT_MAX`: line 61's `RegCloseKey` sits in
the `else` branch only. At capacity `INT_MAX + 1` on the sample registry the
handle of the v4 client key is left open. -/
theorem ReadRegistryString_handles_left_open :
    (∀ (reg : Registry) (rootKey : Nat) (keyName valueName value : String) (cchMax : Nat),
      handlesLeftOpen (ReadRegistryString reg rootKey keyName valueName value cchMax).calls =
        if RegOpenKeyEx reg rootKey keyName 0 KEY_READ = ERROR_SUCCESS ∧ cchMax > INT_MAX
        then [⟨rootKey, keyName⟩] else []) ∧
    handlesLeftOpen (ReadRegistryString (registryOf sampleKeys) HKEY_LOCAL_MACHINE
        FRAMEWORK_REGKEY FRAMEWORK_INSTALLPATH_REGVALUE "" 2147483648).calls =
      [⟨HKEY_LOCAL_MACHINE, FRAMEWORK_REGKEY⟩] ∧
    handlesLeftOpen (GetWPFInstallPath (sampleSystem [] sampleKeys) "" 2147483648).calls =
      [⟨HKEY_LOCAL_MACHINE, FRAMEWORK_REGKEY⟩] := by
  refine ⟨?_, by decide, by decide⟩
  intro reg rootKey keyName valueName value cchMax
  by_cases ho : RegOpenKeyEx reg rootKey keyName 0 KEY_READ = ERROR_SUCCESS
  · by_cases hc : cchMax > INT_MAX
    · rw [ReadRegistryString_oversized _ _ _ _ _ _ ho hc]
      simp [handlesLeftOpen, trackHandles, ho, hc]
    · rw [ReadRegistryString_queried _ _ _ _ _ _ ho hc]
      simp [handlesLeftOpen, trackHandles, hc]
  · rw [ReadRegistryString_open_failed _ _ _ _ _ _ ho]
    simp [handlesLeftOpen, trackHandles, ho]

set_option maxRecDepth 8000 in
/-- C7, as stated, fails: the `InstallPath` value exists under the opened key
with type `REG_EXPAND_SZ`, and `ReadRegistryString` returns
`ERROR_INVALID_PARAMETER` at capacity `INT_MAX + 1` and `ERROR_MORE_DATA` at
capacity 260 (the value needs 602 bytes), neither of which is
`ERROR_UNSUPPORTED_TYPE`. -/
theorem ReadRegistryString_wrong_type_counterexample :
    (ReadRegistryString (registryOf expandKeys) HKEY_LOCAL_MACHINE FRAMEWORK_REGKEY
        FRAMEWORK_INSTALLPATH_REGVALUE "" 2147483648).result = ERROR_INVALID_PARAMETER ∧
    (ReadRegistryString (registryOf expandKeys) HKEY_LOCAL_MACHINE FRAMEWORK_REGKEY
        FRAMEWORK_INSTALLPATH_REGVALUE "" 260).result = ERROR_MORE_DATA ∧
    ERROR_INVALID_PARAMETER ≠ ERROR_UNSUPPORTED_TYPE ∧
    ERROR_MORE_DATA ≠ ERROR_UNSUPPORTED_TYPE ∧
    REG_EXPAND_SZ ≠ REG_SZ := by
  decide

/-- C7, amended: whenever the key opens, the capacity is at most `INT_MAX`
and the query of the value succeeds reporting a type other than `REG_SZ`,
`ReadRegistryString` returns `ERROR_UNSUPPORTED_TYPE`; and on every call,
whenever `ReadRegistryString` returns `ERROR_SUCCESS` the key opened, the
capacity was at most `INT_MAX` and the query succeeded reporting `REG_SZ`. -/
theorem ReadRegistryString_type_check (reg : Registry) (rootKey : Nat)
    (keyName valueName value : String) (cchMax : Nat) :
    (RegOpenKeyEx reg rootKey keyName 0 KEY_READ = ERROR_SUCCESS → ¬ cchMax > INT_MAX →
      (RegQueryValueEx reg ⟨rootKey, keyName⟩ valueName
        (toDWORD (toDWORD cchMax * sizeofWCHAR))).status = ERROR_SUCCESS →
      (RegQueryValueEx reg ⟨rootKey, keyName⟩ valueName
        (toDWORD (toDWORD cchMax * sizeofWCHAR))).type ≠ REG_SZ →
      (ReadRegistryString reg rootKey keyName valueName value cchMax).result
        = ERROR_UNSUPPORTED_TYPE) ∧
    ((ReadRegistryString reg rootKey keyName valueName value cchMax).result = ERROR_SUCCESS →
      RegOpenKeyEx reg rootKey keyName 0 KEY_READ = ERROR_SUCCESS ∧ ¬ cchMax > INT_MAX ∧
      (RegQueryValueEx reg ⟨rootKey, keyName⟩ valueName
        (toDWORD (toDWORD cchMax * sizeofWCHAR))).status = ERROR_SUCCESS ∧
      (RegQueryValueEx reg ⟨rootKey, keyName⟩ valueName
        (toDWORD (toDWORD cchMax * sizeofWCHAR))).type = REG_SZ) := by
  constructor
  · intro ho hc hs ht
    rw [ReadRegistryString_queried _ _ _ _ _ _ ho hc]
    simp only [hs, ht, ne_eq, not_false_eq_true, and_self, if_true]
  · intro hres
    by_cases ho : RegOpenKeyEx reg rootKey keyName 0 KEY_READ = ERROR_SUCCESS
    · by_cases hc : cchMax > INT_MAX
      · rw [ReadRegistryString_oversized _ _ _ _ _ _ ho hc] at hres
        exact absurd hres (show ERROR_INVALID_PARAMETER ≠ ERROR_SUCCESS by decide)
      · rw [ReadRegistryString_queried _ _ _ _ _ _ ho hc] at hres
        simp only at hres
        split at hres
        · exact absurd hres (show ERROR_UNSUPPORTED_TYPE ≠ ERROR_SUCCESS by decide)
        · rename_i hn
          refine ⟨ho, hc, hres, ?_⟩
          by_contra ht
          exact hn ⟨hres, ht⟩
    · rw [ReadRegistryString_open_failed _ _ _ _ _ _ ho] at hres
      exact absurd hres ho

set_option maxRecDepth 8000 in
/-- C7, amended, on the registry whose `InstallPath` has type
`REG_EXPAND_SZ`: at capacity 400 the query succeeds and the result is
`ERROR_UNSUPPORTED_TYPE`. -/
theorem ReadRegistryString_type_check_witness :
    (ReadRegistryString (registryOf expandKeys) HKEY_LOCAL_MACHINE FRAMEWORK_REGKEY
        FRAMEWORK_INSTALLPATH_REGVALUE "" 400).result = ERROR_UNSUPPORTED_TYPE :=
  (ReadRegistryString_type_check (registryOf expandKeys) HKEY_LOCAL_MACHINE FRAMEWORK_REGKEY
    FRAMEWORK_INSTALLPATH_REGVALUE "" 400).1 (by decide) (by decide) (by decide) (by decide)

/-! ## Claims about the registry fallbacks of `GetWPFInstallPath` -/

/-- The append step reads no registry location. -/
theorem appendSegment_locations (sys : System) (s : PathResult) (pszMore : String) :
    (appendSegment sys s pszMore).calls.filterMap Call.location =
      s.calls.filterMap Call.location := by
  unfold appendSegment
  split
  · simp [List.filterMap_append, Call.location]
  · rfl

/-- The registry locations `ReadRegistryString` reads: the key it opens and,
when it gets as far as the query, the value under that key. -/
theorem ReadRegistryString_locations (reg : Registry) (rootKey : Nat)
    (keyName valueName value : String) (cchMax : Nat) :
    (ReadRegistryString reg rootKey keyName valueName value cchMax).calls.filterMap
        Call.location = [(rootKey, keyName, none)] ∨
    (ReadRegistryString reg rootKey keyName valueName value cchMax).calls.filterMap
        Call.location = [(rootKey, keyName, none), (rootKey, keyName, some valueName)] := by
  by_cases ho : RegOpenKeyEx reg rootKey keyName 0 KEY_READ = ERROR_SUCCESS
  · by_cases hc : cchMax > INT_MAX
    · rw [ReadRegistryString_oversized _ _ _ _ _ _ ho hc]
      exact Or.inl rfl
    · rw [ReadRegistryString_queried _ _ _ _ _ _ ho hc]
      exact Or.inr rfl
  · rw [ReadRegistryString_open_failed _ _ _ _ _ _ ho]
    exact Or.inl rfl

/-- C8: for every capacity of at least `MAX_PATH`, when the `ReadRegistryString`
call of either registry fallback returns a nonzero status, `GetWPFInstallPath`
returns `HRESULT_FROM_WIN32` of that status, which is a failure `HRESULT`, and
its platform calls are the environment reads that led to the fallback followed
by the calls of that `ReadRegistryString`, with nothing after them: no
`PathAppend`, no further environment or registry read. A failed key open is
such a status: `ReadRegistryString` returns the status of the open unchanged
and queries nothing. -/
theorem GetWPFInstallPath_registry_failure (sys : System) (pszPath : String) (cchMaxPath : Nat)
    (hcap : MAX_PATH ≤ cchMaxPath) :
    ((GetEnvironmentVariableW sys.env COMPLUS_Version sys.stack MAX_PATH).1 = 0 →
      (ReadRegistryString sys.reg HKEY_LOCAL_MACHINE FRAMEWORK_REGKEY
        FRAMEWORK_INSTALLPATH_REGVALUE pszPath cchMaxPath).result ≠ ERROR_SUCCESS →
      GetWPFInstallPath sys pszPath cchMaxPath =
        { hr := HRESULT_FROM_WIN32 (ReadRegistryString sys.reg HKEY_LOCAL_MACHINE
            FRAMEWORK_REGKEY FRAMEWORK_INSTALLPATH_REGVALUE pszPath cchMaxPath).result,
          pszPath := (ReadRegistryString sys.reg HKEY_LOCAL_MACHINE
            FRAMEWORK_REGKEY FRAMEWORK_INSTALLPATH_REGVALUE pszPath cchMaxPath).value,
          calls := Call.GetEnvironmentVariableW COMPLUS_Version MAX_PATH ::
            (ReadRegistryString sys.reg HKEY_LOCAL_MACHINE
              FRAMEWORK_REGKEY FRAMEWORK_INSTALLPATH_REGVALUE pszPath cchMaxPath).calls } ∧
      FAILED (HRESULT_FROM_WIN32 (ReadRegistryString sys.reg HKEY_LOCAL_MACHINE
        FRAMEWORK_REGKEY FRAMEWORK_INSTALLPATH_REGVALUE pszPath cchMaxPath).result) = true) ∧
    (0 < (GetEnvironmentVariableW sys.env COMPLUS_Version sys.stack MAX_PATH).1 →
      (GetEnvironmentVariableW sys.env COMPLUS_InstallRoot pszPath (toDWORD cchMaxPath)).1 = 0 →
      (ReadRegistryString sys.reg HKEY_LOCAL_MACHINE DOTNET_FRAMEWORK_REGKEY
        DOTNET_FRAMEWORK_INSTALLROOT_REGVALUE
        (GetEnvironmentVariableW sys.env COMPLUS_InstallRoot pszPath (toDWORD cchMaxPath)).2
        (toDWORD cchMaxPath)).result ≠ ERROR_SUCCESS →
      GetWPFInstallPath sys pszPath cchMaxPath =
        { hr := HRESULT_FROM_WIN32 (ReadRegistryString sys.reg HKEY_LOCAL_MACHINE
            DOTNET_FRAMEWORK_REGKEY DOTNET_FRAMEWORK_INSTALLROOT_REGVALUE
            (GetEnvironmentVariableW sys.env COMPLUS_InstallRoot pszPath (toDWORD cchMaxPath)).2
            (toDWORD cchMaxPath)).result,
          pszPath := (ReadRegistryString sys.reg HKEY_LOCAL_MACHINE
            DOTNET_FRAMEWORK_REGKEY DOTNET_FRAMEWORK_INSTALLROOT_REGVALUE
            (GetEnvironmentVariableW sys.env COMPLUS_InstallRoot pszPath (toDWORD cchMaxPath)).2
            (toDWORD cchMaxPath)).value,
          calls := Call.GetEnvironmentVariableW COMPLUS_Version MAX_PATH ::
            Call.GetEnvironmentVariableW COMPLUS_InstallRoot (toDWORD cchMaxPath) ::
            (ReadRegistryString sys.reg HKEY_LOCAL_MACHINE
              DOTNET_FRAMEWORK_REGKEY DOTNET_FRAMEWORK_INSTALLROOT_REGVALUE
              (GetEnvironmentVariableW sys.env COMPLUS_InstallRoot pszPath (toDWORD cchMaxPath)).2
              (toDWORD cchMaxPath)).calls } ∧
      FAILED (HRESULT_FROM_WIN32 (ReadRegistryString sys.reg HKEY_LOCAL_MACHINE
        DOTNET_FRAMEWORK_REGKEY DOTNET_FRAMEWORK_INSTALLROOT_REGVALUE
        (GetEnvironmentVariableW sys.env COMPLUS_InstallRoot pszPath (toDWORD cchMaxPath)).2
        (toDWORD cchMaxPath)).result) = true) ∧
    (∀ (rootKey : Nat) (keyName valueName value : String) (cchMax : Nat),
      RegOpenKeyEx sys.reg rootKey keyName 0 KEY_READ ≠ ERROR_SUCCESS →
      ReadRegistryString sys.reg rootKey keyName valueName value cchMax =
        { result := RegOpenKeyEx sys.reg rootKey keyName 0 KEY_READ, value := value,
          calls := [Call.RegOpenKeyEx rootKey keyName 0 KEY_READ
            (RegOpenKeyEx sys.reg rootKey keyName 0 KEY_READ)] }) := by
  refine ⟨?_, ?_, ?_⟩
  · intro hv hreg
    have hneg := ReadRegistryString_translate_neg hreg
    refine ⟨?_, FAILED_of_neg hneg⟩
    rw [GetWPFInstallPath_version_unset _ _ hcap hv]
    unfold readInstallPath
    simp only [hreg, ne_eq, not_false_eq_true, if_true, List.singleton_append]
    rw [appendSegment_mk_failed _ _ _ _ _ hneg]
  · intro hv hr hreg
    have hneg := ReadRegistryString_translate_neg hreg
    refine ⟨?_, FAILED_of_neg hneg⟩
    rw [GetWPFInstallPath_version_set _ _ hcap hv, readInstallRoot_unset _ _ _ hr]
    simp only [hreg, ne_eq, not_false_eq_true, if_true, List.singleton_append, List.cons_append,
      List.nil_append]
    rw [appendSegment_mk_failed _ _ _ _ _ hneg, appendSegment_mk_failed _ _ _ _ _ hneg]
  · intro rootKey keyName valueName value cchMax ho
    exact ReadRegistryString_open_failed _ _ _ _ _ _ ho

/-- C8 on the sample system with no `COMPLUS_Version` and no v4 client key:
the open fails with `ERROR_FILE_NOT_FOUND` and `GetWPFInstallPath` returns its
translation `0x80070002`, after the version read and that one open. -/
theorem GetWPFInstallPath_registry_failure_witness :
    GetWPFInstallPath (sampleSystem [] []) "" 260 =
      { hr := -2147024894, pszPath := "",
        calls := [Call.GetEnvironmentVariableW COMPLUS_Version MAX_PATH,
          Call.RegOpenKeyEx HKEY_LOCAL_MACHINE FRAMEWORK_REGKEY 0 KEY_READ
            ERROR_FILE_NOT_FOUND] } ∧
    HRESULT_FROM_WIN32 ERROR_FILE_NOT_FOUND = -2147024894 ∧
    FAILED (HRESULT_FROM_WIN32 ERROR_FILE_NOT_FOUND) = true :=
  have h := (GetWPFInstallPath_registry_failure (sampleSystem [] []) "" 260 (by decide)).1
    (by decide) (by decide)
  ⟨h.1.trans (by decide), by decide, h.2⟩

/-- C9, as stated, fails: with `COMPLUS_Version` set and `COMPLUS_InstallRoot`
not set, the registry locations read are the key
`Software\Microsoft\.NETFramework` and its value `InstallRoot`; the key path
`Software\.NETFramework` is not read, and a registry that holds `InstallRoot`
under that key path only makes the lookup fail with the translation of
`ERROR_FILE_NOT_FOUND`. -/
theorem GetWPFInstallPath_registry_locations_counterexample :
    (GetWPFInstallPath (sampleSystem [("COMPLUS_Version", "v4.0.30319")] sampleKeys) ""
        260).calls.filterMap Call.location =
      [(HKEY_LOCAL_MACHINE, "Software\\Microsoft\\.NETFramework", none),
       (HKEY_LOCAL_MACHINE, "Software\\Microsoft\\.NETFramework", some "InstallRoot")] ∧
    (HKEY_LOCAL_MACHINE, "Software\\.NETFramework", none) ∉
      (GetWPFInstallPath (sampleSystem [("COMPLUS_Version", "v4.0.30319")] sampleKeys) ""
        260).calls.filterMap Call.location ∧
    DOTNET_FRAMEWORK_REGKEY ≠ "Software\\.NETFramework" ∧
    (GetWPFInstallPath (sampleSystem [("COMPLUS_Version", "v4.0.30319")] shortPathKeys) ""
        260).hr = HRESULT_FROM_WIN32 ERROR_FILE_NOT_FOUND ∧
    (GetWPFInstallPath (sampleSystem [("COMPLUS_Version", "v4.0.30319")] shortPathKeys) ""
        260).calls.filterMap Call.location =
      [(HKEY_LOCAL_MACHINE, "Software\\Microsoft\\.NETFramework", none)] := by
  decide

/-- C9, amended: for every capacity of at least `MAX_PATH`, the registry
locations `GetWPFInstallPath` reads are all under `HKEY_LOCAL_MACHINE`: when
`COMPLUS_Version` reads as non-empty and `COMPLUS_InstallRoot` as length zero,
the key `Software\Microsoft\.NETFramework` and, if the query is reached, its
value `InstallRoot`; when `COMPLUS_Version` reads as length zero, the key
`Software\Microsoft\Net Framework Setup\NDP\v4\Client` and, if the query is
reached, its value `InstallPath`. -/
theorem GetWPFInstallPath_registry_locations (sys : System) (pszPath : String)
    (cchMaxPath : Nat) (hcap : MAX_PATH ≤ cchMaxPath) :
    (0 < (GetEnvironmentVariableW sys.env COMPLUS_Version sys.stack MAX_PATH).1 →
      (GetEnvironmentVariableW sys.env COMPLUS_InstallRoot pszPath (toDWORD cchMaxPath)).1 = 0 →
      (GetWPFInstallPath sys pszPath cchMaxPath).calls.filterMap Call.location =
        [(HKEY_LOCAL_MACHINE, "Software\\Microsoft\\.NETFramework", none)] ∨
      (GetWPFInstallPath sys pszPath cchMaxPath).calls.filterMap Call.location =
        [(HKEY_LOCAL_MACHINE, "Software\\Microsoft\\.NETFramework", none),
         (HKEY_LOCAL_MACHINE, "Software\\Microsoft\\.NETFramework", some "InstallRoot")]) ∧
    ((GetEnvironmentVariableW sys.env COMPLUS_Version sys.stack MAX_PATH).1 = 0 →
      (GetWPFInstallPath sys pszPath cchMaxPath).calls.filterMap Call.location =
        [(HKEY_LOCAL_MACHINE, "Software\\Microsoft\\Net Framework Setup\\NDP\\v4\\Client",
          none)] ∨
      (GetWPFInstallPath sys pszPath cchMaxPath).calls.filterMap Call.location =
        [(HKEY_LOCAL_MACHINE, "Software\\Microsoft\\Net Framework Setup\\NDP\\v4\\Client",
          none),
         (HKEY_LOCAL_MACHINE, "Software\\Microsoft\\Net Framework Setup\\NDP\\v4\\Client",
          some "InstallPath")]) := by
  constructor
  · intro hv hr
    rw [GetWPFInstallPath_version_set _ _ hcap hv, appendSegment_locations,
      appendSegment_locations, readInstallRoot_unset _ _ _ hr]
    simp only [List.filterMap_append, List.filterMap_cons, List.filterMap_nil, Call.location,
      List.nil_append]
    exact ReadRegistryString_locations _ _ _ _ _ _
  · intro hv
    rw [GetWPFInstallPath_version_unset _ _ hcap hv, appendSegment_locations]
    unfold readInstallPath
    simp only [List.filterMap_append, List.filterMap_cons, List.filterMap_nil, Call.location,
      List.nil_append]
    exact ReadRegistryString_locations _ _ _ _ _ _

/-- C9, amended, on the sample system: with no `COMPLUS_Version` the
locations read are the v4 client key and its `InstallPath` value; with
`COMPLUS_Version` set and no `COMPLUS_InstallRoot` they are the key
`Software\Microsoft\.NETFramework` and its `InstallRoot` value. -/
theorem GetWPFInstallPath_registry_locations_witness :
    (GetWPFInstallPath (sampleSystem [] sampleKeys) "" 260).calls.filterMap Call.location =
      [(HKEY_LOCAL_MACHINE, "Software\\Microsoft\\Net Framework Setup\\NDP\\v4\\Client", none),
       (HKEY_LOCAL_MACHINE, "Software\\Microsoft\\Net Framework Setup\\NDP\\v4\\Client",
        some "InstallPath")] ∧
    (GetWPFInstallPath (sampleSystem [("COMPLUS_Version", "v4.0.30319")] sampleKeys) ""
        260).calls.filterMap Call.location =
      [(HKEY_LOCAL_MACHINE, "Software\\Microsoft\\.NETFramework", none),
       (HKEY_LOCAL_MACHINE, "Software\\Microsoft\\.NETFramework", some "InstallRoot")] :=
  ⟨((GetWPFInstallPath_registry_locations (sampleSystem [] sampleKeys) "" 260 (by decide)).2
      (by decide)).resolve_left (by decide),
   ((GetWPFInstallPath_registry_locations
      (sampleSystem [("COMPLUS_Version", "v4.0.30319")] sampleKeys) "" 260 (by decide)).1
      (by decide) (by decide)).resolve_left (by decide)⟩

/-- C10, on the code: with the capacity `2^32 + 260`, `COMPLUS_Version` set
and `COMPLUS_InstallRoot` not set, the `InstallRoot` fallback hands
`ReadRegistryString` the capacity 260 (the query is announced 520 bytes) and
`GetWPFInstallPath` returns `S_OK` with the path built from the registry,
while at the same capacity the `InstallPath` fallback fails with
`HRESULT_FROM_WIN32(ERROR_INVALID_PARAMETER)`. -/
theorem GetWPFInstallPath_capacity_truncated :
    4294967556 > INT_MAX ∧ toDWORD 4294967556 = 260 ∧
    (GetWPFInstallPath (sampleSystem [("COMPLUS_Version", "v4.0.30319")] sampleKeys) ""
        4294967556).hr = S_OK ∧
    (GetWPFInstallPath (sampleSystem [("COMPLUS_Version", "v4.0.30319")] sampleKeys) ""
        4294967556).pszPath = "C:\\Windows\\Microsoft.NET\\Framework\\v4.0.30319\\WPF" ∧
    Call.RegQueryValueEx ⟨HKEY_LOCAL_MACHINE, DOTNET_FRAMEWORK_REGKEY⟩
        DOTNET_FRAMEWORK_INSTALLROOT_REGVALUE 520 ∈
      (GetWPFInstallPath (sampleSystem [("COMPLUS_Version", "v4.0.30319")] sampleKeys) ""
        4294967556).calls ∧
    (GetWPFInstallPath (sampleSystem [] sampleKeys) "" 4294967556).hr =
      HRESULT_FROM_WIN32 ERROR_INVALID_PARAMETER ∧
    HRESULT_FROM_WIN32 ERROR_INVALID_PARAMETER ≠ S_OK := by
  decide

end WPFUtils
